import Mathlib

/-!
Verification of `src/schedutils/coreset.c` (core-scheduling cookie tool).

The embedding models the program after option parsing: the parsed option
values are collected in `Args` (the local variables `pid`, `copy`, `create`,
`push`, `cs.scope` of `main`, plus `argc - optind` as `nprog`), and `mainRun`
mirrors the validation and dispatch logic of `main` (coreset.c lines 233-286).
`doCoreset` mirrors `do_coreset` (lines 151-180), `get_cookie` lines 140-149,
`print_cookie` lines 117-125, `err_cookie` lines 127-138.

The kernel side of `prctl(PR_SCHED_CORE, ...)` is external to the program; it
is modelled by `Kernel`: a cookie assignment per task id (`0` = no cookie), the
id `self` of the calling task (`getpid()`), a fresh-cookie source for
`PR_SCHED_CORE_CREATE`, and a failure oracle `fails` saying which calls the
kernel rejects (permission denied, no such task, unsupported feature, ...).
`Kernel.apply` gives the success semantics of each call on the task named in
the call; scope-wide propagation to sibling tasks is kernel-internal and not
modelled (no claim depends on it).  A run is recorded as the list of kernel
calls issued (in order), the list of output events, the final kernel state,
and whether the program aborted via `err_cookie` (which exits EXIT_FAILURE).
-/

/-- Constant `PR_SCHED_CORE_SCOPE_THREAD` (coreset.c line 49). -/
def SCOPE_THREAD : Int := 0

/-- Constant `PR_SCHED_CORE_SCOPE_THREAD_GROUP` (coreset.c line 50). -/
def SCOPE_THREAD_GROUP : Int := 1

/-- Constant `PR_SCHED_CORE_SCOPE_PROCESS_GROUP` (coreset.c line 51). -/
def SCOPE_PROCESS_GROUP : Int := 2

/-- Values of `enum cmd_type` (coreset.c lines 55-60). -/
def CORE_SHOW : Nat := 0

def CORE_CREATE : Nat := 1

def CORE_PUSH : Nat := 2

def CORE_COPY : Nat := 3

/-- One `prctl(PR_SCHED_CORE, op, pid, scope, ...)` call, as issued by the
program.  A `pid` of `0` means the calling task. -/
inductive KCall where
  | kget (pid : Int) (scope : Int)
  | kcreate (pid : Int) (scope : Int)
  | kshareFrom (pid : Int) (scope : Int)
  | kshareTo (pid : Int) (scope : Int)
deriving DecidableEq, Repr

/-- The kernel as seen through `prctl(PR_SCHED_CORE, ...)`: cookie per task
(`0` = none), the pid of the calling task, a source of fresh cookies, and the
oracle of calls the kernel fails. -/
structure Kernel where
  self : Int
  cookies : Int → Nat
  fresh : Nat
  fails : KCall → Bool

/-- Task id `0` in a call denotes the calling task. -/
def Kernel.resolve (k : Kernel) (p : Int) : Int := if p = 0 then k.self else p

/-- Success semantics of one kernel call on the named task.  `kget` reads only;
`kcreate` installs a fresh cookie on the target; `kshareFrom` makes the calling
task adopt the cookie of the target (PR_SCHED_CORE_SHARE_FROM); `kshareTo` puts
the cookie of the calling task onto the target (PR_SCHED_CORE_SHARE_TO). -/
def Kernel.apply (k : Kernel) (c : KCall) : Kernel :=
  match c with
  | .kget _ _ => k
  | .kcreate p _ =>
      { k with cookies := fun t => if t = k.resolve p then k.fresh else k.cookies t,
               fresh := k.fresh + 1 }
  | .kshareFrom p _ =>
      { k with cookies := fun t => if t = k.self then k.cookies (k.resolve p) else k.cookies t }
  | .kshareTo p _ =>
      { k with cookies := fun t => if t = k.resolve p then k.cookies k.self else k.cookies t }

/-- Observable output of the program: the two `printf` forms of `print_cookie`
(line 124), the fatal `err` of `err_cookie` (line 137, exits EXIT_FAILURE), the
`warnx` messages of `main` (lines 236, 242, 248, 254, 271), and the `execvp`
image replacement (line 282). -/
inductive Event where
  | printCookie (pid : Int) (cookie : Nat) (isnew : Bool)
  | errCookie (pid : Int) (set : Nat)
  | warnBadUsage
  | warnInvalidPid
  | warnInvalidScope
  | warnExtraneous
  | execProg
deriving DecidableEq, Repr

/-- Embedding of `struct coreset` (coreset.c lines 62-69). -/
structure Coreset where
  pid : Int
  cookie : Nat
  cmd : Nat
  scope : Int
deriving DecidableEq, Repr

/-- The pid argument `get_cookie` passes to PR_SCHED_CORE_GET (line 143):
with CORE_COPY the cookie of the current task is reported, not that of the source. -/
def get_cookie_pid (cs : Coreset) : Int := if cs.cmd = CORE_COPY then 0 else cs.pid

/-- The kernel call `get_cookie` issues (line 145): always scope THREAD. -/
def get_cookie_call (cs : Coreset) : KCall := .kget (get_cookie_pid cs) SCOPE_THREAD

/-- Function `get_cookie` (lines 140-149): on failure, `err_cookie(pid ? pid : getpid(),
FALSE)` exits; on success the raw cookie value is returned (zero included). -/
def get_cookie (k : Kernel) (cs : Coreset) : Except Event Nat :=
  if k.fails (get_cookie_call cs) then
    .error (.errCookie (if get_cookie_pid cs ≠ 0 then get_cookie_pid cs else k.self) 0)
  else
    .ok (k.cookies (k.resolve (get_cookie_pid cs)))

/-- Function `print_cookie` (lines 117-125): prints `cs->pid ? cs->pid : getpid()` and
`cs->cookie`, with the new/current message chosen by `isnew`. -/
def print_cookie (self : Int) (cs : Coreset) (isnew : Bool) : Event :=
  .printCookie (if cs.pid ≠ 0 then cs.pid else self) cs.cookie isnew

/-- The mutating kernel call chosen by the `switch` in `do_coreset` (lines
160-174): CREATE uses the requested scope, COPY forces scope THREAD
("Scope must be 0 so we force it", line 166), PUSH uses the requested scope. -/
def mutCall (cs : Coreset) : KCall :=
  if cs.cmd = CORE_CREATE then .kcreate cs.pid cs.scope
  else if cs.cmd = CORE_COPY then .kshareFrom cs.pid SCOPE_THREAD
  else .kshareTo cs.pid cs.scope

/-- Result of one `do_coreset` run: kernel calls issued in order, output
events, final kernel state, and `ok = false` when `err_cookie` aborted. -/
structure DoResult where
  calls : List KCall
  events : List Event
  kernel : Kernel
  ok : Bool

/-- The re-read tail of `do_coreset` (lines 177-179): read the cookie again
and print it as new. -/
def doFinish (k2 : Kernel) (cs : Coreset) (e1 : Event) (calls : List KCall) : DoResult :=
  match get_cookie k2 cs with
  | .error e => ⟨calls ++ [get_cookie_call cs], [e1, e], k2, false⟩
  | .ok v2 => ⟨calls ++ [get_cookie_call cs], [e1, print_cookie k2.self { cs with cookie := v2 } true], k2, true⟩

/-- Function `do_coreset` (lines 151-180): read and print the current cookie; on
CORE_SHOW return; otherwise issue the mutating call (aborting via `err_cookie`
on failure), then re-read and print the new cookie. -/
def doCoreset (k : Kernel) (cs0 : Coreset) : DoResult :=
  match get_cookie k cs0 with
  | .error e => ⟨[get_cookie_call cs0], [e], k, false⟩
  | .ok v =>
    let cs : Coreset := { cs0 with cookie := v }
    let e1 := print_cookie k.self cs false
    let c1 := get_cookie_call cs0
    if cs.cmd = CORE_SHOW then ⟨[c1], [e1], k, true⟩
    else if cs.cmd = CORE_CREATE ∨ cs.cmd = CORE_COPY ∨ cs.cmd = CORE_PUSH then
      let mc := mutCall cs
      if k.fails mc then
        ⟨[c1, mc], [e1, .errCookie (if cs.pid ≠ 0 then cs.pid else k.self) cs.cmd], k, false⟩
      else
        doFinish (k.apply mc) cs e1 [c1, mc]
    else
      doFinish k cs e1 [c1]

/-- The parsed option state of `main` right after the getopt loop: `pid` from
`-p` (0 when absent; `strtos32_or_err` can yield any s32), `scope` from `-s`
(0 when absent), the three command flags, and `nprog = argc - optind` (number
of trailing program words). -/
structure Args where
  pid : Int
  scope : Int
  copy : Bool
  create : Bool
  push : Bool
  nprog : Nat
deriving DecidableEq, Repr

/-- How the process ended: `usageError` is `errtryhelp(EXIT_FAILURE)`,
`kernelError` is the `err(EXIT_FAILURE, ...)` of `err_cookie`, `execed` is
image replacement by `execvp`, `done` is `return EXIT_SUCCESS`. -/
inductive MainOutcome where
  | usageError
  | kernelError
  | execed
  | done
deriving DecidableEq, Repr

/-- Exit status of each outcome: `errtryhelp(EXIT_FAILURE)` and
`err(EXIT_FAILURE, ...)` both exit 1; `return EXIT_SUCCESS` exits 0; after a
successful `execvp` the process image is replaced and the exit status is that
of the new program (`none`). -/
def exitCode : MainOutcome → Option Nat
  | .usageError => some 1
  | .kernelError => some 1
  | .execed => none
  | .done => some 0

/-- Result of one whole invocation. -/
structure MainResult where
  calls : List KCall
  events : List Event
  outcome : MainOutcome
  kernel : Kernel

/-- Command selection in `main` (lines 261-267). -/
def selectCmd (a : Args) : Nat :=
  if a.create then CORE_CREATE
  else if a.copy then CORE_COPY
  else if a.push then CORE_PUSH
  else CORE_SHOW

/-- Function `main` after the getopt loop (coreset.c lines 233-286): the two bad-usage
checks, the negative-pid check, the scope-range check, `do_exec` computation
with the "Ingoring extraneous input" override (lines 270-273), the `do_coreset`
call, and the optional `execvp`. -/
def mainRun (k : Kernel) (a : Args) : MainResult :=
  if ((a.pid = 0 ∨ a.copy = true) ∧ a.nprog < 1) ∨ ((a.copy = true ∨ a.push = true) ∧ a.pid = 0) then
    ⟨[], [.warnBadUsage], .usageError, k⟩
  else if (if a.copy then 1 else 0) + (if a.create then 1 else 0) + (if a.push then 1 else 0) > 1 then
    ⟨[], [.warnBadUsage], .usageError, k⟩
  else if a.pid < 0 then
    ⟨[], [.warnInvalidPid], .usageError, k⟩
  else if a.scope < SCOPE_THREAD ∨ a.scope > SCOPE_PROCESS_GROUP then
    ⟨[], [.warnInvalidScope], .usageError, k⟩
  else
    let cmd := selectCmd a
    let extraneous := a.pid ≠ 0 ∧ 0 < a.nprog ∧ (cmd = CORE_SHOW ∨ cmd = CORE_CREATE)
    let warns : List Event := if extraneous then [.warnExtraneous] else []
    let cs : Coreset := { pid := a.pid, cookie := 0, cmd := cmd, scope := a.scope }
    let r := doCoreset k cs
    if r.ok = false then
      ⟨r.calls, warns ++ r.events, .kernelError, r.kernel⟩
    else if 0 < a.nprog ∧ ¬extraneous then
      ⟨r.calls, warns ++ r.events ++ [.execProg], .execed, r.kernel⟩
    else
      ⟨r.calls, warns ++ r.events, .done, r.kernel⟩

/-! ### Helper lemmas on the kernel model and `do_coreset` -/

lemma Kernel.apply_fails (k : Kernel) (c : KCall) : (k.apply c).fails = k.fails := by
  cases c <;> rfl

lemma Kernel.apply_self (k : Kernel) (c : KCall) : (k.apply c).self = k.self := by
  cases c <;> rfl

/-- Evaluation of `do_coreset` for a mutating command when the initial read and
the mutating call both succeed: read, print, mutate, re-read, print as new. -/
lemma doCoreset_mut_ok (k : Kernel) (cs : Coreset)
    (hc : cs.cmd = CORE_CREATE ∨ cs.cmd = CORE_COPY ∨ cs.cmd = CORE_PUSH)
    (h1 : k.fails (get_cookie_call cs) = false)
    (h2 : k.fails (mutCall cs) = false) :
    doCoreset k cs = ⟨[get_cookie_call cs, mutCall cs, get_cookie_call cs],
      [print_cookie k.self { cs with cookie := k.cookies (k.resolve (get_cookie_pid cs)) } false,
       print_cookie (k.apply (mutCall cs)).self
         { cs with cookie := (k.apply (mutCall cs)).cookies ((k.apply (mutCall cs)).resolve (get_cookie_pid cs)) } true],
      k.apply (mutCall cs), true⟩ := by
  rcases hc with h | h | h <;>
    simp_all [doCoreset, doFinish, get_cookie, mutCall, get_cookie_call, get_cookie_pid,
      print_cookie, Kernel.apply_fails, CORE_SHOW, CORE_CREATE, CORE_COPY, CORE_PUSH]

/-- Evaluation of `do_coreset` for a mutating command whose mutating call the
kernel rejects: `err_cookie` aborts right after the first print; no re-read,
no "new cookie" print, kernel state unchanged. -/
lemma doCoreset_mut_fail (k : Kernel) (cs : Coreset)
    (hc : cs.cmd = CORE_CREATE ∨ cs.cmd = CORE_COPY ∨ cs.cmd = CORE_PUSH)
    (h1 : k.fails (get_cookie_call cs) = false)
    (h2 : k.fails (mutCall cs) = true) :
    doCoreset k cs = ⟨[get_cookie_call cs, mutCall cs],
      [print_cookie k.self { cs with cookie := k.cookies (k.resolve (get_cookie_pid cs)) } false,
       .errCookie (if cs.pid ≠ 0 then cs.pid else k.self) cs.cmd],
      k, false⟩ := by
  rcases hc with h | h | h <;>
    simp_all [doCoreset, doFinish, get_cookie, mutCall, get_cookie_call, get_cookie_pid,
      print_cookie, CORE_SHOW, CORE_CREATE, CORE_COPY, CORE_PUSH]

/-- Evaluation of `do_coreset` for CORE_SHOW when the read succeeds. -/
lemma doCoreset_show_ok (k : Kernel) (cs : Coreset)
    (hc : cs.cmd = CORE_SHOW)
    (h1 : k.fails (get_cookie_call cs) = false) :
    doCoreset k cs = ⟨[get_cookie_call cs],
      [print_cookie k.self { cs with cookie := k.cookies (k.resolve (get_cookie_pid cs)) } false],
      k, true⟩ := by
  simp_all [doCoreset, get_cookie, get_cookie_call, get_cookie_pid, print_cookie,
    CORE_SHOW, CORE_COPY]

/-- Evaluation of `do_coreset` when the initial read fails: `err_cookie`
aborts at once, naming the queried task. -/
lemma doCoreset_get_fail (k : Kernel) (cs : Coreset)
    (h1 : k.fails (get_cookie_call cs) = true) :
    doCoreset k cs = ⟨[get_cookie_call cs],
      [.errCookie (if get_cookie_pid cs ≠ 0 then get_cookie_pid cs else k.self) 0],
      k, false⟩ := by
  simp_all [doCoreset, get_cookie, get_cookie_call, get_cookie_pid]

/-- A failing `get_cookie` produces exactly one `err_cookie` event. -/
lemma get_cookie_error_shape (k : Kernel) (cs : Coreset) (e : Event)
    (h : get_cookie k cs = .error e) :
    e = .errCookie (if get_cookie_pid cs ≠ 0 then get_cookie_pid cs else k.self) 0 := by
  unfold get_cookie at h
  split at h
  · exact (Except.error.injEq ..).mp h |>.symm
  · simp at h

/-- Every PR_SCHED_CORE_SHARE_FROM call `do_coreset` ever issues carries scope
THREAD: the only place the constructor occurs is the COPY arm, with the
literal `PR_SCHED_CORE_SCOPE_THREAD`. -/
lemma doCoreset_shareFrom_scope (k : Kernel) (cs : Coreset) (p s : Int)
    (hmem : KCall.kshareFrom p s ∈ (doCoreset k cs).calls) : s = SCOPE_THREAD := by
  unfold doCoreset at hmem
  split at hmem
  · simp [get_cookie_call] at hmem
  · simp only at hmem
    split at hmem
    · simp [get_cookie_call] at hmem
    · split at hmem
      · split at hmem
        · simp only [List.mem_cons, List.mem_singleton, List.not_mem_nil, or_false] at hmem
          rcases hmem with h | h
          · simp [get_cookie_call] at h
          · unfold mutCall at h
            split at h
            · simp at h
            · split at h
              · exact (KCall.kshareFrom.injEq ..).mp h.symm |>.2.symm
              · simp at h
        · unfold doFinish at hmem
          split at hmem <;>
          · simp only [List.mem_append, List.mem_cons, List.mem_singleton,
              List.not_mem_nil, or_false] at hmem
            rcases hmem with (h | h) | h
            · simp [get_cookie_call] at h
            · unfold mutCall at h
              split at h
              · simp at h
              · split at h
                · exact (KCall.kshareFrom.injEq ..).mp h.symm |>.2.symm
                · simp at h
            · simp [get_cookie_call] at h
      · unfold doFinish at hmem
        split at hmem <;> simp [get_cookie_call] at hmem

/-- Function `do_coreset` never prints anything but cookie lines and `err_cookie`
messages; in particular it never execs. -/
lemma doCoreset_no_execProg (k : Kernel) (cs : Coreset) :
    Event.execProg ∉ (doCoreset k cs).events := by
  unfold doCoreset
  split
  · rename_i e heq
    have := get_cookie_error_shape _ _ _ heq
    simp [this]
  · simp only
    split
    · simp [print_cookie]
    · split
      · split
        · simp [print_cookie]
        · unfold doFinish
          split
          · rename_i e heq
            have := get_cookie_error_shape _ _ _ heq
            simp [print_cookie, this]
          · simp [print_cookie]
      · unfold doFinish
        split
        · rename_i e heq
          have := get_cookie_error_shape _ _ _ heq
          simp [print_cookie, this]
        · simp [print_cookie]

/-- Full evaluation of a validated `-c` (COPY) invocation with source pid `p`,
scope `s` and a trailing program, when the kernel accepts all calls. -/
lemma mainRun_copy_nofail (k : Kernel) (p s : Int) (n : Nat)
    (hp : 0 < p) (hn : 0 < n) (hs0 : 0 ≤ s) (hs2 : s ≤ 2)
    (h1 : k.fails (.kget 0 SCOPE_THREAD) = false)
    (h2 : k.fails (.kshareFrom p SCOPE_THREAD) = false) :
    mainRun k ⟨p, s, true, false, false, n⟩ =
      ⟨[.kget 0 SCOPE_THREAD, .kshareFrom p SCOPE_THREAD, .kget 0 SCOPE_THREAD],
       [.printCookie p (k.cookies k.self) false,
        .printCookie p (k.cookies p) true,
        .execProg],
       .execed, k.apply (.kshareFrom p SCOPE_THREAD)⟩ := by
  have hp' : p ≠ 0 := by omega
  unfold mainRun
  rw [if_neg (by simp; omega), if_neg (by simp), if_neg (by show ¬(p < 0); omega),
    if_neg (by simp [SCOPE_THREAD, SCOPE_PROCESS_GROUP]; omega)]
  have hsel : selectCmd ⟨p, s, true, false, false, n⟩ = CORE_COPY := by
    simp [selectCmd]
  simp only [hsel]
  rw [doCoreset_mut_ok k ⟨p, 0, CORE_COPY, s⟩ (by simp [CORE_COPY])
    (by simpa [get_cookie_call, get_cookie_pid, CORE_COPY] using h1)
    (by simpa [mutCall, CORE_COPY, CORE_CREATE] using h2)]
  simp [get_cookie_call, get_cookie_pid, mutCall, print_cookie, Kernel.apply_self,
    Kernel.apply, Kernel.resolve, CORE_COPY, CORE_CREATE, CORE_SHOW, hp', hn,
    SCOPE_THREAD]

/-- Full evaluation of a validated `-n -p PID CMD...` invocation (NEW on an
existing task with a trailing program): the trailing program is dropped with a
warning and the run completes without exec. -/
lemma mainRun_create_pid_nofail (k : Kernel) (p s : Int) (n : Nat)
    (hp : 0 < p) (hn : 0 < n) (hs0 : 0 ≤ s) (hs2 : s ≤ 2)
    (h1 : k.fails (.kget p SCOPE_THREAD) = false)
    (h2 : k.fails (.kcreate p s) = false) :
    mainRun k ⟨p, s, false, true, false, n⟩ =
      ⟨[.kget p SCOPE_THREAD, .kcreate p s, .kget p SCOPE_THREAD],
       [.warnExtraneous,
        .printCookie p (k.cookies p) false,
        .printCookie p k.fresh true],
       .done, k.apply (.kcreate p s)⟩ := by
  have hp' : p ≠ 0 := by omega
  unfold mainRun
  rw [if_neg (by simp; omega), if_neg (by simp), if_neg (by show ¬(p < 0); omega),
    if_neg (by simp [SCOPE_THREAD, SCOPE_PROCESS_GROUP]; omega)]
  have hsel : selectCmd ⟨p, s, false, true, false, n⟩ = CORE_CREATE := by
    simp [selectCmd]
  simp only [hsel]
  rw [doCoreset_mut_ok k ⟨p, 0, CORE_CREATE, s⟩ (by simp [CORE_CREATE])
    (by simpa [get_cookie_call, get_cookie_pid, CORE_CREATE, CORE_COPY] using h1)
    (by simpa [mutCall, CORE_CREATE] using h2)]
  simp [get_cookie_call, get_cookie_pid, mutCall, print_cookie, Kernel.apply_self,
    Kernel.apply, Kernel.resolve, CORE_COPY, CORE_CREATE, CORE_SHOW, hp', hn,
    SCOPE_THREAD]

/-- Full evaluation of a validated `-n CMD...` invocation (NEW in launch mode,
no task named): create the cookie on the own task of the caller, print it, exec. -/
lemma mainRun_create_launch_nofail (k : Kernel) (s : Int) (n : Nat)
    (hn : 0 < n) (hs0 : 0 ≤ s) (hs2 : s ≤ 2)
    (h1 : k.fails (.kget 0 SCOPE_THREAD) = false)
    (h2 : k.fails (.kcreate 0 s) = false) :
    mainRun k ⟨0, s, false, true, false, n⟩ =
      ⟨[.kget 0 SCOPE_THREAD, .kcreate 0 s, .kget 0 SCOPE_THREAD],
       [.printCookie k.self (k.cookies k.self) false,
        .printCookie k.self k.fresh true,
        .execProg],
       .execed, k.apply (.kcreate 0 s)⟩ := by
  unfold mainRun
  rw [if_neg (by simp; omega), if_neg (by simp), if_neg (by show ¬((0:Int) < 0); omega),
    if_neg (by simp [SCOPE_THREAD, SCOPE_PROCESS_GROUP]; omega)]
  have hsel : selectCmd ⟨0, s, false, true, false, n⟩ = CORE_CREATE := by
    simp [selectCmd]
  simp only [hsel]
  rw [doCoreset_mut_ok k ⟨0, 0, CORE_CREATE, s⟩ (by simp [CORE_CREATE])
    (by simpa [get_cookie_call, get_cookie_pid, CORE_CREATE, CORE_COPY] using h1)
    (by simpa [mutCall, CORE_CREATE] using h2)]
  simp [get_cookie_call, get_cookie_pid, mutCall, print_cookie, Kernel.apply_self,
    Kernel.apply, Kernel.resolve, CORE_COPY, CORE_CREATE, CORE_SHOW, hn, SCOPE_THREAD]

/-- Full evaluation of `-p PID` (SHOW) when the kernel read succeeds: one GET
call, one print, exit success; a zero cookie is printed like any other. -/
lemma mainRun_show_ok (k : Kernel) (p s : Int)
    (hp : 0 < p) (hs0 : 0 ≤ s) (hs2 : s ≤ 2)
    (h1 : k.fails (.kget p SCOPE_THREAD) = false) :
    mainRun k ⟨p, s, false, false, false, 0⟩ =
      ⟨[.kget p SCOPE_THREAD],
       [.printCookie p (k.cookies p) false],
       .done, k⟩ := by
  have hp' : p ≠ 0 := by omega
  unfold mainRun
  rw [if_neg (by simp; omega), if_neg (by simp), if_neg (by show ¬(p < 0); omega),
    if_neg (by simp [SCOPE_THREAD, SCOPE_PROCESS_GROUP]; omega)]
  have hsel : selectCmd ⟨p, s, false, false, false, 0⟩ = CORE_SHOW := by
    simp [selectCmd]
  simp only [hsel]
  rw [doCoreset_show_ok k ⟨p, 0, CORE_SHOW, s⟩ rfl
    (by simpa [get_cookie_call, get_cookie_pid, CORE_SHOW, CORE_COPY] using h1)]
  simp [get_cookie_call, get_cookie_pid, print_cookie, Kernel.resolve,
    CORE_COPY, CORE_SHOW, hp', SCOPE_THREAD]

/-- Full evaluation of `-p PID` (SHOW) when the kernel read fails: `err_cookie`
aborts with EXIT_FAILURE naming the queried pid; no cookie line is printed. -/
lemma mainRun_show_fail (k : Kernel) (p s : Int)
    (hp : 0 < p) (hs0 : 0 ≤ s) (hs2 : s ≤ 2)
    (h1 : k.fails (.kget p SCOPE_THREAD) = true) :
    mainRun k ⟨p, s, false, false, false, 0⟩ =
      ⟨[.kget p SCOPE_THREAD],
       [.errCookie p 0],
       .kernelError, k⟩ := by
  have hp' : p ≠ 0 := by omega
  unfold mainRun
  rw [if_neg (by simp; omega), if_neg (by simp), if_neg (by show ¬(p < 0); omega),
    if_neg (by simp [SCOPE_THREAD, SCOPE_PROCESS_GROUP]; omega)]
  have hsel : selectCmd ⟨p, s, false, false, false, 0⟩ = CORE_SHOW := by
    simp [selectCmd]
  simp only [hsel]
  rw [doCoreset_get_fail k ⟨p, 0, CORE_SHOW, s⟩
    (by simpa [get_cookie_call, get_cookie_pid, CORE_SHOW, CORE_COPY] using h1)]
  simp [get_cookie_call, get_cookie_pid, CORE_SHOW, CORE_COPY, hp', SCOPE_THREAD]

/-- Full evaluation of a validated `-t -p PID` (PUSH) invocation without a
trailing program, when the kernel accepts all calls. -/
lemma mainRun_push_nofail (k : Kernel) (p s : Int)
    (hp : 0 < p) (hs0 : 0 ≤ s) (hs2 : s ≤ 2)
    (h1 : k.fails (.kget p SCOPE_THREAD) = false)
    (h2 : k.fails (.kshareTo p s) = false) :
    mainRun k ⟨p, s, false, false, true, 0⟩ =
      ⟨[.kget p SCOPE_THREAD, .kshareTo p s, .kget p SCOPE_THREAD],
       [.printCookie p (k.cookies p) false,
        .printCookie p (k.cookies k.self) true],
       .done, k.apply (.kshareTo p s)⟩ := by
  have hp' : p ≠ 0 := by omega
  unfold mainRun
  rw [if_neg (by simp; omega), if_neg (by simp), if_neg (by show ¬(p < 0); omega),
    if_neg (by simp [SCOPE_THREAD, SCOPE_PROCESS_GROUP]; omega)]
  have hsel : selectCmd ⟨p, s, false, false, true, 0⟩ = CORE_PUSH := by
    simp [selectCmd]
  simp only [hsel]
  rw [doCoreset_mut_ok k ⟨p, 0, CORE_PUSH, s⟩ (by simp [CORE_PUSH])
    (by simpa [get_cookie_call, get_cookie_pid, CORE_PUSH, CORE_COPY] using h1)
    (by simpa [mutCall, CORE_PUSH, CORE_CREATE, CORE_COPY] using h2)]
  simp [get_cookie_call, get_cookie_pid, mutCall, print_cookie, Kernel.apply_self,
    Kernel.apply, Kernel.resolve, CORE_COPY, CORE_CREATE, CORE_SHOW, CORE_PUSH, hp',
    SCOPE_THREAD]

/-- Full evaluation of a validated `-t -p PID CMD...` (PUSH with trailing
program): same as without, then exec. -/
lemma mainRun_push_exec_nofail (k : Kernel) (p s : Int) (n : Nat)
    (hp : 0 < p) (hn : 0 < n) (hs0 : 0 ≤ s) (hs2 : s ≤ 2)
    (h1 : k.fails (.kget p SCOPE_THREAD) = false)
    (h2 : k.fails (.kshareTo p s) = false) :
    mainRun k ⟨p, s, false, false, true, n⟩ =
      ⟨[.kget p SCOPE_THREAD, .kshareTo p s, .kget p SCOPE_THREAD],
       [.printCookie p (k.cookies p) false,
        .printCookie p (k.cookies k.self) true,
        .execProg],
       .execed, k.apply (.kshareTo p s)⟩ := by
  have hp' : p ≠ 0 := by omega
  unfold mainRun
  rw [if_neg (by simp; omega), if_neg (by simp), if_neg (by show ¬(p < 0); omega),
    if_neg (by simp [SCOPE_THREAD, SCOPE_PROCESS_GROUP]; omega)]
  have hsel : selectCmd ⟨p, s, false, false, true, n⟩ = CORE_PUSH := by
    simp [selectCmd]
  simp only [hsel]
  rw [doCoreset_mut_ok k ⟨p, 0, CORE_PUSH, s⟩ (by simp [CORE_PUSH])
    (by simpa [get_cookie_call, get_cookie_pid, CORE_PUSH, CORE_COPY] using h1)
    (by simpa [mutCall, CORE_PUSH, CORE_CREATE, CORE_COPY] using h2)]
  simp [get_cookie_call, get_cookie_pid, mutCall, print_cookie, Kernel.apply_self,
    Kernel.apply, Kernel.resolve, CORE_COPY, CORE_CREATE, CORE_SHOW, CORE_PUSH, hp',
    hn, SCOPE_THREAD]

/-- When the first `bad usage` test of `main` (line 235) fires, the program
stops before anything else happens. -/
lemma mainRun_bad_usage (k : Kernel) (a : Args)
    (h : ((a.pid = 0 ∨ a.copy = true) ∧ a.nprog < 1) ∨ ((a.copy = true ∨ a.push = true) ∧ a.pid = 0)) :
    mainRun k a = ⟨[], [.warnBadUsage], .usageError, k⟩ := by
  rw [mainRun, if_pos h]

/-- Witness kernel state used to instantiate the hypothesised theorems: caller
task 42, task 700 holding cookie 3, everything else uncookied, next fresh
cookie 5, no kernel failures. -/
def kW : Kernel := ⟨42, fun t => if t = 700 then 3 else 0, 5, fun _ => false⟩

/-- Same kernel state but every PR_SCHED_CORE call fails (e.g. a pre-5.14
kernel without the feature). -/
def kWfail : Kernel := ⟨42, fun t => if t = 700 then 3 else 0, 5, fun _ => true⟩

/-- C3: any invocation whose scope lies outside the three enumerated values
{THREAD=0, THREAD_GROUP=1, PROCESS_GROUP=2} or whose task identifier is
negative is rejected as a usage error before any kernel call, with no kernel
side effects. -/
theorem claim_C3_invalid_scope_or_pid_rejected (k : Kernel) (a : Args)
    (h : a.pid < 0 ∨ a.scope < SCOPE_THREAD ∨ SCOPE_PROCESS_GROUP < a.scope) :
    (mainRun k a).outcome = .usageError ∧ (mainRun k a).calls = [] ∧ (mainRun k a).kernel = k := by
  unfold mainRun
  by_cases h1 : ((a.pid = 0 ∨ a.copy = true) ∧ a.nprog < 1) ∨ ((a.copy = true ∨ a.push = true) ∧ a.pid = 0)
  · rw [if_pos h1]; exact ⟨rfl, rfl, rfl⟩
  rw [if_neg h1]
  by_cases h2 : (if a.copy then 1 else 0) + (if a.create then 1 else 0) + (if a.push then 1 else 0) > 1
  · rw [if_pos h2]; exact ⟨rfl, rfl, rfl⟩
  rw [if_neg h2]
  by_cases h3 : a.pid < 0
  · rw [if_pos h3]; exact ⟨rfl, rfl, rfl⟩
  rw [if_neg h3]
  rw [if_pos]
  · exact ⟨rfl, rfl, rfl⟩
  · unfold SCOPE_THREAD SCOPE_PROCESS_GROUP at h ⊢
    omega

theorem claim_C3_witness :
    (mainRun kW ⟨700, 5, false, false, false, 0⟩).outcome = .usageError ∧
    (mainRun kW ⟨700, 5, false, false, false, 0⟩).calls = [] ∧
    (mainRun kW ⟨700, 5, false, false, false, 0⟩).kernel = kW :=
  claim_C3_invalid_scope_or_pid_rejected kW ⟨700, 5, false, false, false, 0⟩
    (by right; right; decide)

/-- C4: selecting more than one of the mutating command flags (`-c`, `-n`,
`-t`) is rejected as a usage error before any kernel call; every accepted
request thus has at most one active; with none of them the selected command is
CORE_SHOW (GET). -/
theorem claim_C4_commands_mutually_exclusive (k : Kernel) (a : Args) :
    ((if a.copy then 1 else 0) + (if a.create then 1 else 0) + (if a.push then 1 else 0) > 1 →
      (mainRun k a).outcome = .usageError ∧ (mainRun k a).calls = []) ∧
    ((mainRun k a).outcome ≠ .usageError →
      (if a.copy then 1 else 0) + (if a.create then 1 else 0) + (if a.push then 1 else 0) ≤ 1) ∧
    (a.copy = false → a.create = false → a.push = false → selectCmd a = CORE_SHOW) := by
  have hmul : (if a.copy then 1 else 0) + (if a.create then 1 else 0) + (if a.push then 1 else 0) > 1 →
      (mainRun k a).outcome = .usageError ∧ (mainRun k a).calls = [] := by
    intro h
    unfold mainRun
    by_cases h1 : ((a.pid = 0 ∨ a.copy = true) ∧ a.nprog < 1) ∨ ((a.copy = true ∨ a.push = true) ∧ a.pid = 0)
    · rw [if_pos h1]; exact ⟨rfl, rfl⟩
    · rw [if_neg h1, if_pos h]; exact ⟨rfl, rfl⟩
  refine ⟨hmul, ?_, ?_⟩
  · intro hacc
    by_contra hgt
    exact hacc (hmul (by omega)).1
  · intro hc hn hp
    simp [selectCmd, hc, hn, hp, CORE_SHOW]

theorem claim_C4_witness :
    ((mainRun kW ⟨700, 0, true, true, false, 1⟩).outcome = .usageError ∧
      (mainRun kW ⟨700, 0, true, true, false, 1⟩).calls = []) :=
  (claim_C4_commands_mutually_exclusive kW ⟨700, 0, true, true, false, 1⟩).1 (by decide)

/-- C1: a validated COPY invocation first has the destination task (the
calling task, which then execs the named program) pull the cookie of the source via
PR_SCHED_CORE_SHARE_FROM; no push (PR_SCHED_CORE_SHARE_TO) is ever issued —
the command grammar gives COPY no way to name an explicit destination task, so
the conditional push step of the spec is vacuous — and afterwards the cookie of
the destination equals the value the source had before the copy; in particular a
source without a cookie leaves the destination without one. -/
theorem claim_C1_copy_pull_then_get (k : Kernel) (p s : Int) (n : Nat)
    (hp : 0 < p) (hn : 0 < n) (hs0 : 0 ≤ s) (hs2 : s ≤ 2)
    (hf : ∀ c, k.fails c = false) :
    (mainRun k ⟨p, s, true, false, false, n⟩).calls =
      [.kget 0 SCOPE_THREAD, .kshareFrom p SCOPE_THREAD, .kget 0 SCOPE_THREAD] ∧
    (∀ q t, KCall.kshareTo q t ∉ (mainRun k ⟨p, s, true, false, false, n⟩).calls) ∧
    (mainRun k ⟨p, s, true, false, false, n⟩).kernel.cookies k.self = k.cookies p ∧
    (k.cookies p = 0 → (mainRun k ⟨p, s, true, false, false, n⟩).kernel.cookies k.self = 0) := by
  have hp' : p ≠ 0 := by omega
  rw [mainRun_copy_nofail k p s n hp hn hs0 hs2 (hf _) (hf _)]
  have hcook : (Kernel.apply k (.kshareFrom p SCOPE_THREAD)).cookies k.self = k.cookies p := by
    simp [Kernel.apply, Kernel.resolve, hp']
  refine ⟨rfl, ?_, hcook, fun h => hcook.trans h⟩
  intro q t hmem
  simp at hmem

theorem claim_C1_witness :
    (mainRun kW ⟨700, 1, true, false, false, 1⟩).kernel.cookies kW.self = kW.cookies 700 :=
  (claim_C1_copy_pull_then_get kW 700 1 1 (by decide) (by decide) (by decide) (by decide)
    (fun _ => rfl)).2.2.1

/-- C2 as stated is false: `-n -p 700 prog` (NEW naming an existing task and
also supplying a trailing program) is not rejected as a usage error — the run
completes successfully (exit 0), performing the NEW on pid 700 and ignoring
the trailing program after a warning. -/
theorem claim_C2_counterexample :
    (mainRun kW ⟨700, 0, false, true, false, 1⟩).outcome = .done ∧
    exitCode (mainRun kW ⟨700, 0, false, true, false, 1⟩).outcome = some 0 ∧
    Event.warnExtraneous ∈ (mainRun kW ⟨700, 0, false, true, false, 1⟩).events ∧
    Event.execProg ∉ (mainRun kW ⟨700, 0, false, true, false, 1⟩).events ∧
    KCall.kcreate 700 0 ∈ (mainRun kW ⟨700, 0, false, true, false, 1⟩).calls := by
  decide

/-- C2 amended: NEW naming an existing task and also supplying a trailing
program is not rejected; the program warns ("Ingoring extraneous input"),
drops the trailing program without executing it, and proceeds with the NEW
operation on the named task, completing with exit status 0. -/
theorem claim_C2_amended_extraneous_ignored (k : Kernel) (p s : Int) (n : Nat)
    (hp : 0 < p) (hn : 0 < n) (hs0 : 0 ≤ s) (hs2 : s ≤ 2)
    (hf : ∀ c, k.fails c = false) :
    (mainRun k ⟨p, s, false, true, false, n⟩).outcome = .done ∧
    exitCode (mainRun k ⟨p, s, false, true, false, n⟩).outcome = some 0 ∧
    Event.warnExtraneous ∈ (mainRun k ⟨p, s, false, true, false, n⟩).events ∧
    Event.execProg ∉ (mainRun k ⟨p, s, false, true, false, n⟩).events ∧
    (mainRun k ⟨p, s, false, true, false, n⟩).calls =
      [.kget p SCOPE_THREAD, .kcreate p s, .kget p SCOPE_THREAD] := by
  rw [mainRun_create_pid_nofail k p s n hp hn hs0 hs2 (hf _) (hf _)]
  refine ⟨rfl, rfl, by simp, ?_, rfl⟩
  simp

theorem claim_C2_amended_witness :
    Event.execProg ∉ (mainRun kW ⟨700, 1, false, true, false, 2⟩).events :=
  (claim_C2_amended_extraneous_ignored kW 700 1 2 (by decide) (by decide) (by decide)
    (by decide) (fun _ => rfl)).2.2.2.1

/-- C5: NEW in launch mode (no task named, trailing program given) first
creates the new cookie on the own task of the controller, prints the new cookie,
and only then replaces the process image with the program; and a NEW request
with neither an existing task nor a trailing program is a usage error
rejected before any kernel call. -/
theorem claim_C5_new_launch_mode (k : Kernel) (s : Int) (n : Nat)
    (hn : 0 < n) (hs0 : 0 ≤ s) (hs2 : s ≤ 2)
    (hf : ∀ c, k.fails c = false) :
    (mainRun k ⟨0, s, false, true, false, n⟩).calls =
      [.kget 0 SCOPE_THREAD, .kcreate 0 s, .kget 0 SCOPE_THREAD] ∧
    (mainRun k ⟨0, s, false, true, false, n⟩).events =
      [.printCookie k.self (k.cookies k.self) false,
       .printCookie k.self k.fresh true,
       .execProg] ∧
    (mainRun k ⟨0, s, false, true, false, n⟩).outcome = .execed ∧
    (mainRun k ⟨0, s, false, true, false, 0⟩).outcome = .usageError ∧
    (mainRun k ⟨0, s, false, true, false, 0⟩).calls = [] := by
  rw [mainRun_create_launch_nofail k s n hn hs0 hs2 (hf _) (hf _),
    mainRun_bad_usage k ⟨0, s, false, true, false, 0⟩ (by simp)]
  exact ⟨rfl, rfl, rfl, rfl, rfl⟩

theorem claim_C5_witness :
    (mainRun kW ⟨0, 1, false, true, false, 1⟩).events =
      [.printCookie 42 0 false, .printCookie 42 5 true, .execProg] :=
  (claim_C5_new_launch_mode kW 1 1 (by decide) (by decide) (by decide)
    (fun _ => rfl)).2.1

/-- C6: for a GET (show) on task `p`, a successful kernel read completes with
exit status 0 and prints the raw cookie value — zero included, meaning "no
cookie" — while a failed kernel read is a distinct fatal outcome (exit 1)
that names the queried task and prints no cookie value at all; failure is
never encoded as a zero cookie. -/
theorem claim_C6_zero_cookie_is_success (k : Kernel) (p s : Int)
    (hp : 0 < p) (hs0 : 0 ≤ s) (hs2 : s ≤ 2) :
    (k.fails (.kget p SCOPE_THREAD) = false →
      (mainRun k ⟨p, s, false, false, false, 0⟩).outcome = .done ∧
      exitCode (mainRun k ⟨p, s, false, false, false, 0⟩).outcome = some 0 ∧
      (mainRun k ⟨p, s, false, false, false, 0⟩).events = [.printCookie p (k.cookies p) false]) ∧
    (k.fails (.kget p SCOPE_THREAD) = true →
      (mainRun k ⟨p, s, false, false, false, 0⟩).outcome = .kernelError ∧
      exitCode (mainRun k ⟨p, s, false, false, false, 0⟩).outcome = some 1 ∧
      (mainRun k ⟨p, s, false, false, false, 0⟩).events = [.errCookie p 0]) := by
  constructor
  · intro h1
    rw [mainRun_show_ok k p s hp hs0 hs2 h1]
    exact ⟨rfl, rfl, rfl⟩
  · intro h1
    rw [mainRun_show_fail k p s hp hs0 hs2 h1]
    exact ⟨rfl, rfl, rfl⟩

theorem claim_C6_witness :
    (mainRun kW ⟨900, 0, false, false, false, 0⟩).outcome = .done ∧
    exitCode (mainRun kW ⟨900, 0, false, false, false, 0⟩).outcome = some 0 ∧
    (mainRun kW ⟨900, 0, false, false, false, 0⟩).events = [.printCookie 900 0 false] :=
  (claim_C6_zero_cookie_is_success kW 900 0 (by decide) (by decide) (by decide)).1 rfl

/-- C7 as stated is false on the COPY path: in this concrete successful COPY
run the task whose cookie is mutated is the calling task 42 (its cookie goes
from 0 to 3, while source 700 is unchanged), yet both report lines — the
"new cookie" line included — name pid 700, so the resulting value is not
reported for the mutated task identifier.  (There is also no verbose flag:
reporting is unconditional.) -/
theorem claim_C7_counterexample :
    (mainRun kW ⟨700, 0, true, false, false, 1⟩).events =
      [.printCookie 700 0 false, .printCookie 700 3 true, .execProg] ∧
    kW.self = 42 ∧
    kW.cookies 42 = 0 ∧
    (mainRun kW ⟨700, 0, true, false, false, 1⟩).kernel.cookies 42 = 3 ∧
    (mainRun kW ⟨700, 0, true, false, false, 1⟩).kernel.cookies 700 = kW.cookies 700 := by
  decide

/-- C7 amended: after a mutating operation (Create or Copy) whose kernel call
succeeds, `do_coreset` re-reads the affected cookie (the request pid for
Create, the calling task for Copy) and unconditionally reports the re-read
value — labelling the line with the pid field of the request, which for Copy is the
source pid rather than the mutated calling task — and the reporting re-read
leaves the kernel state exactly as the mutation left it; if the mutating call
fails, the run aborts at once with `err_cookie`: no re-read happens, no "new
cookie" line is printed, and the kernel state is unchanged. -/
theorem claim_C7_amended_report_after_mutation (k : Kernel) (cs : Coreset)
    (hc : cs.cmd = CORE_CREATE ∨ cs.cmd = CORE_COPY)
    (h1 : k.fails (get_cookie_call cs) = false) :
    (k.fails (mutCall cs) = true →
      (doCoreset k cs).ok = false ∧
      (doCoreset k cs).kernel = k ∧
      (∀ q v, Event.printCookie q v true ∉ (doCoreset k cs).events)) ∧
    (k.fails (mutCall cs) = false →
      (doCoreset k cs).ok = true ∧
      (doCoreset k cs).kernel = k.apply (mutCall cs) ∧
      (doCoreset k cs).events =
        [print_cookie k.self { cs with cookie := k.cookies (k.resolve (get_cookie_pid cs)) } false,
         print_cookie k.self
           { cs with cookie := (k.apply (mutCall cs)).cookies ((k.apply (mutCall cs)).resolve (get_cookie_pid cs)) } true]) := by
  have hc' : cs.cmd = CORE_CREATE ∨ cs.cmd = CORE_COPY ∨ cs.cmd = CORE_PUSH := by
    rcases hc with h | h
    · exact Or.inl h
    · exact Or.inr (Or.inl h)
  constructor
  · intro h2
    rw [doCoreset_mut_fail k cs hc' h1 h2]
    refine ⟨rfl, rfl, ?_⟩
    intro q v
    simp [print_cookie]
  · intro h2
    rw [doCoreset_mut_ok k cs hc' h1 h2]
    exact ⟨rfl, rfl, by rw [Kernel.apply_self]⟩

/-- Kernel state where reads succeed but every mutating call fails. -/
def kWmutfail : Kernel := ⟨42, fun t => if t = 700 then 3 else 0, 5,
  fun c => match c with | .kget _ _ => false | _ => true⟩

theorem claim_C7_amended_witness :
    (doCoreset kWmutfail ⟨700, 0, CORE_CREATE, 1⟩).ok = false ∧
    (doCoreset kWmutfail ⟨700, 0, CORE_CREATE, 1⟩).kernel = kWmutfail :=
  ⟨((claim_C7_amended_report_after_mutation kWmutfail ⟨700, 0, CORE_CREATE, 1⟩
      (Or.inl rfl) rfl).1 rfl).1,
   ((claim_C7_amended_report_after_mutation kWmutfail ⟨700, 0, CORE_CREATE, 1⟩
      (Or.inl rfl) rfl).1 rfl).2.1⟩

/-- C8 as stated is false: a usage/validation error (invalid scope 5) and a
kernel-call failure (GET rejected by the kernel) are distinct failure classes
but exit with the same status 1; there is no distinct unsupported-feature or
no-cookie exit code. -/
theorem claim_C8_counterexample :
    (mainRun kW ⟨700, 5, false, false, false, 0⟩).outcome = .usageError ∧
    (mainRun kWfail ⟨700, 0, false, false, false, 0⟩).outcome = .kernelError ∧
    exitCode .usageError = some 1 ∧
    exitCode .kernelError = some 1 := by
  decide

/-- C8 amended: the process exits 0 on success and 1 on failure, with no
further distinction: usage/validation errors and kernel-call failures both
exit EXIT_FAILURE (1), success without exec exits EXIT_SUCCESS (0), and after
a successful exec the status is that of the new program; no other exit codes
exist, and no dedicated unsupported-feature or missing-cookie codes exist. -/
theorem claim_C8_amended_exit_codes (k : Kernel) (a : Args) :
    ((mainRun k a).outcome = .usageError → exitCode (mainRun k a).outcome = some 1) ∧
    ((mainRun k a).outcome = .kernelError → exitCode (mainRun k a).outcome = some 1) ∧
    ((mainRun k a).outcome = .done → exitCode (mainRun k a).outcome = some 0) ∧
    (exitCode (mainRun k a).outcome = none ∨
      exitCode (mainRun k a).outcome = some 0 ∨
      exitCode (mainRun k a).outcome = some 1) := by
  cases h : (mainRun k a).outcome <;> simp [exitCode]

theorem claim_C8_amended_witness :
    exitCode (mainRun kW ⟨700, 5, false, false, false, 0⟩).outcome = some 1 :=
  (claim_C8_amended_exit_codes kW ⟨700, 5, false, false, false, 0⟩).1 (by decide)

/-- Scope does not enter the COPY path of `do_coreset` at all: the result is
identical for any two requested scopes. -/
lemma doCoreset_copy_scope (k : Kernel) (p : Int) (c : Nat) (s1 s2 : Int) :
    doCoreset k ⟨p, c, CORE_COPY, s1⟩ = doCoreset k ⟨p, c, CORE_COPY, s2⟩ := by
  simp [doCoreset, doFinish, get_cookie, get_cookie_call, get_cookie_pid, mutCall,
    print_cookie, CORE_SHOW, CORE_CREATE, CORE_COPY, CORE_PUSH]

/-- Any PR_SCHED_CORE_SHARE_FROM call a whole invocation issues has scope
THREAD, whatever scope the operator supplied. -/
lemma mainRun_shareFrom_scope (k : Kernel) (a : Args) (p s : Int)
    (hmem : KCall.kshareFrom p s ∈ (mainRun k a).calls) : s = SCOPE_THREAD := by
  unfold mainRun at hmem
  by_cases h1 : ((a.pid = 0 ∨ a.copy = true) ∧ a.nprog < 1) ∨ ((a.copy = true ∨ a.push = true) ∧ a.pid = 0)
  · rw [if_pos h1] at hmem; simp at hmem
  rw [if_neg h1] at hmem
  by_cases h2 : (if a.copy then 1 else 0) + (if a.create then 1 else 0) + (if a.push then 1 else 0) > 1
  · rw [if_pos h2] at hmem; simp at hmem
  rw [if_neg h2] at hmem
  by_cases h3 : a.pid < 0
  · rw [if_pos h3] at hmem; simp at hmem
  rw [if_neg h3] at hmem
  by_cases h4 : a.scope < SCOPE_THREAD ∨ a.scope > SCOPE_PROCESS_GROUP
  · rw [if_pos h4] at hmem; simp at hmem
  rw [if_neg h4] at hmem
  simp only at hmem
  split at hmem <;> [skip; split at hmem] <;>
    exact doCoreset_shareFrom_scope k _ p s (by simpa using hmem)

/-- Rejection via the `invalid pid` check (line 247). -/
lemma mainRun_invalid_pid (k : Kernel) (a : Args)
    (hv : ¬(((a.pid = 0 ∨ a.copy = true) ∧ a.nprog < 1) ∨ ((a.copy = true ∨ a.push = true) ∧ a.pid = 0)))
    (he : ¬((if a.copy then 1 else 0) + (if a.create then 1 else 0) + (if a.push then 1 else 0) > 1))
    (hp : a.pid < 0) :
    mainRun k a = ⟨[], [.warnInvalidPid], .usageError, k⟩ := by
  rw [mainRun, if_neg hv, if_neg he, if_pos hp]

/-- A validated COPY invocation reduces to the scope-0 `do_coreset` run
followed by exec (or the kernel-error abort). -/
lemma mainRun_copy_eval (k : Kernel) (q s : Int) (n : Nat)
    (hq : ¬(q = 0)) (hqn : ¬(q < 0)) (hn : ¬(n < 1)) (hs : ¬(s < SCOPE_THREAD ∨ s > SCOPE_PROCESS_GROUP)) :
    mainRun k ⟨q, s, true, false, false, n⟩ =
      (if (doCoreset k ⟨q, 0, CORE_COPY, 0⟩).ok = false then
        ⟨(doCoreset k ⟨q, 0, CORE_COPY, 0⟩).calls, (doCoreset k ⟨q, 0, CORE_COPY, 0⟩).events,
          .kernelError, (doCoreset k ⟨q, 0, CORE_COPY, 0⟩).kernel⟩
      else
        ⟨(doCoreset k ⟨q, 0, CORE_COPY, 0⟩).calls, (doCoreset k ⟨q, 0, CORE_COPY, 0⟩).events ++ [.execProg],
          .execed, (doCoreset k ⟨q, 0, CORE_COPY, 0⟩).kernel⟩) := by
  unfold mainRun
  rw [if_neg (by simp; omega), if_neg (by simp), if_neg (by show ¬(q < 0); omega),
    if_neg (by simpa using hs)]
  have hsel : selectCmd ⟨q, s, true, false, false, n⟩ = CORE_COPY := by simp [selectCmd]
  simp only [hsel]
  rw [doCoreset_copy_scope k q 0 s 0]
  have hn' : 0 < n := by omega
  simp [CORE_COPY, CORE_SHOW, CORE_CREATE, hq, hn']

/-- Two COPY invocations differing only in the requested scope (both valid)
produce identical results: same kernel calls, same output, same outcome, same
final kernel state. -/
lemma mainRun_copy_scope_invariant (k : Kernel) (q s1 s2 : Int) (n : Nat)
    (h10 : 0 ≤ s1) (h12 : s1 ≤ 2) (h20 : 0 ≤ s2) (h22 : s2 ≤ 2) :
    mainRun k ⟨q, s1, true, false, false, n⟩ = mainRun k ⟨q, s2, true, false, false, n⟩ := by
  by_cases hb : n < 1 ∨ q = 0
  · rw [mainRun_bad_usage k ⟨q, s1, true, false, false, n⟩ (by rcases hb with h | h <;> simp [h]),
      mainRun_bad_usage k ⟨q, s2, true, false, false, n⟩ (by rcases hb with h | h <;> simp [h])]
  push_neg at hb
  obtain ⟨hn, hq⟩ := hb
  by_cases hq2 : q < 0
  · rw [mainRun_invalid_pid k ⟨q, s1, true, false, false, n⟩ (by simp; omega) (by simp) hq2,
      mainRun_invalid_pid k ⟨q, s2, true, false, false, n⟩ (by simp; omega) (by simp) hq2]
  rw [mainRun_copy_eval k q s1 n hq hq2 (by omega) (by simp [SCOPE_THREAD, SCOPE_PROCESS_GROUP]; omega),
    mainRun_copy_eval k q s2 n hq hq2 (by omega) (by simp [SCOPE_THREAD, SCOPE_PROCESS_GROUP]; omega)]

/-- C9: the kernel pull (PR_SCHED_CORE_SHARE_FROM) is always issued with scope
THREAD (0), whatever scope the operator supplied; consequently two COPY
invocations identical except for the (valid) scope option issue the same
kernel calls, print the same output, end the same way, and leave the kernel
in the same state. -/
theorem claim_C9_copy_scope_noninterference (k : Kernel) (a : Args) (p s q s1 s2 : Int) (n : Nat) :
    (KCall.kshareFrom p s ∈ (mainRun k a).calls → s = SCOPE_THREAD) ∧
    (0 ≤ s1 → s1 ≤ 2 → 0 ≤ s2 → s2 ≤ 2 →
      mainRun k ⟨q, s1, true, false, false, n⟩ = mainRun k ⟨q, s2, true, false, false, n⟩) := by
  exact ⟨mainRun_shareFrom_scope k a p s,
    fun h10 h12 h20 h22 => mainRun_copy_scope_invariant k q s1 s2 n h10 h12 h20 h22⟩

theorem claim_C9_witness :
    mainRun kW ⟨700, 1, true, false, false, 1⟩ = mainRun kW ⟨700, 2, true, false, false, 1⟩ :=
  (claim_C9_copy_scope_noninterference kW ⟨700, 1, true, false, false, 1⟩ 700 0 700 1 2 1).2
    (by decide) (by decide) (by decide) (by decide)

/-- C10: the program implements a fourth command PUSH (`-t`/`--to`) beyond
{GET, NEW, COPY}: it requires a pid (without one the invocation is a usage
error rejected before any kernel call); with a pid it issues
PR_SCHED_CORE_SHARE_TO onto that pid at the requested scope, so the target
ends up with the current cookie of the caller; and a trailing program, if any,
is exec run after the push. -/
theorem claim_C10_push_command (k : Kernel) (p s : Int) (n : Nat) :
    ((mainRun k ⟨0, s, false, false, true, n⟩).outcome = .usageError ∧
      (mainRun k ⟨0, s, false, false, true, n⟩).calls = []) ∧
    (0 < p → 0 ≤ s → s ≤ 2 → (∀ c, k.fails c = false) →
      (mainRun k ⟨p, s, false, false, true, 0⟩).calls =
        [.kget p SCOPE_THREAD, .kshareTo p s, .kget p SCOPE_THREAD] ∧
      (mainRun k ⟨p, s, false, false, true, 0⟩).kernel.cookies p = k.cookies k.self ∧
      (mainRun k ⟨p, s, false, false, true, 0⟩).outcome = .done ∧
      (0 < n →
        (mainRun k ⟨p, s, false, false, true, n⟩).outcome = .execed ∧
        (mainRun k ⟨p, s, false, false, true, n⟩).events =
          [.printCookie p (k.cookies p) false, .printCookie p (k.cookies k.self) true, .execProg])) := by
  constructor
  · rw [mainRun_bad_usage k ⟨0, s, false, false, true, n⟩ (by simp)]
    exact ⟨rfl, rfl⟩
  · intro hp hs0 hs2 hf
    have hp' : p ≠ 0 := by omega
    rw [mainRun_push_nofail k p s hp hs0 hs2 (hf _) (hf _)]
    refine ⟨rfl, ?_, rfl, ?_⟩
    · simp [Kernel.apply, Kernel.resolve, hp']
    · intro hn
      rw [mainRun_push_exec_nofail k p s n hp hn hs0 hs2 (hf _) (hf _)]
      exact ⟨rfl, rfl⟩

theorem claim_C10_witness :
    (mainRun kW ⟨700, 2, false, false, true, 0⟩).kernel.cookies 700 = kW.cookies kW.self :=
  ((claim_C10_push_command kW 700 2 0).2 (by decide) (by decide) (by decide)
    (fun _ => rfl)).2.1
